import Mathlib

/-!
Verification development for the LLM LaTeX generator
(`src/tools/llm_latex_generator.py`) and the research report loader
(`src/agents/research_agent/llm_report_generator.py`).

Modelling conventions:
* Python strings are `List Char` (abbreviated `Str`); the relevant Python
  string operations (`find`, `in`, slicing, `strip`, `count`, `title`) are
  reproduced below with Python's semantics (negative indices, `-1` sentinel
  for a failed `find`, clamping slices).
* A call to the external text-generation service is modelled as an oracle
  value of type `Except Str Str`: `Except.error e` is the call raising an
  exception whose rendered message is `e`; `Except.ok r` is the call
  returning reply text `r`.  Functions that make several calls take either
  one oracle value per call or a function `Nat → Except Str Str` indexed by
  the attempt number.
* The composite `json.loads(s).get('issues', [])` (standard-library JSON
  parsing followed by key lookup, any exception included) is abstracted as
  a parameter `jparse : Str → Option (List Str)`; `none` models the `except`
  branch being taken.
* The float comparison `len(x) < len(y) * 0.5` in the source is exact for
  all realistic lengths and is rendered as `2 * x.length < y.length`.
-/

/-- Python strings, modelled as lists of characters. -/
abbrev Str := List Char

/-- The ASCII whitespace characters removed by Python's `str.strip()`. -/
def isPySpace (c : Char) : Bool :=
  c == ' ' || c == '\t' || c == '\n' || c == '\r' || c == '\x0b' || c == '\x0c'

/-- Python `s.strip()`: remove leading and trailing whitespace. -/
def pyStrip (s : Str) : Str :=
  ((s.dropWhile isPySpace).reverse.dropWhile isPySpace).reverse

/-- `sub` occurs in `s` starting exactly at index `i` (the full pattern fits). -/
def occursAt (s sub : Str) (i : Nat) : Bool :=
  (s.drop i).take sub.length == sub

/-- Python `s.find(sub, start)` restricted to a non-negative `start`,
returning the smallest occurrence index `≥ start`, as an `Option`. -/
def pyFindNat (s sub : Str) (start : Nat) : Option Nat :=
  (List.range (s.length + 1)).find? (fun i => decide (start ≤ i) && occursAt s sub i)

/-- Python `s.find(sub, start)`: `-1` when there is no occurrence; a negative
`start` counts from the end of the string (clamped at 0). -/
def pyFind (s sub : Str) (start : Int) : Int :=
  let eff : Nat := if start < 0 then ((s.length : Int) + start).toNat else start.toNat
  match pyFindNat s sub eff with
  | some i => (i : Int)
  | none => -1

/-- Python `sub in s`. -/
def pyContains (s sub : Str) : Bool :=
  (pyFindNat s sub 0).isSome

/-- Python slicing `s[a:b]` with negative-index and clamping semantics. -/
def pySlice (s : Str) (a b : Int) : Str :=
  let n : Int := (s.length : Int)
  let a1 : Nat := (if a < 0 then max (n + a) 0 else min a n).toNat
  let b1 : Nat := (if b < 0 then max (n + b) 0 else min b n).toNat
  (s.take b1).drop a1

/-- Fuelled helper for `pyCount`; the fuel `s.length + 1` always suffices
because each found occurrence advances the scan position. -/
def pyCountAux (s sub : Str) : Nat → Nat → Nat
  | _, 0 => 0
  | i, fuel+1 =>
    match pyFindNat s sub i with
    | some j => 1 + pyCountAux s sub (j + sub.length) fuel
    | none => 0

/-- Python `s.count(sub)`: number of non-overlapping occurrences. -/
def pyCount (s sub : Str) : Nat :=
  pyCountAux s sub 0 (s.length + 1)

/-! ### String constants from `llm_latex_generator.py` -/

def latexFence : Str := "```latex".data

def fenceMarker : Str := "```".data

def beginDocMarker : Str := "\\begin{document}".data

def endDocMarker : Str := "\\end{document}".data

def beginEnvMarker : Str := "\\begin\x7b".data

def endEnvMarker : Str := "\\end\x7b".data

def issuesMarker : Str := "\"issues\":".data

def lbraceStr : Str := "\x7b".data

def rbraceStr : Str := "\x7d".data

def unableMsg : Str := "Unable to parse validation issues".data

/-- `_extract_latex_from_response` (lines 229–241): strip a fenced markdown
block from the reply if one is present, else return the trimmed reply. -/
def extract_latex_from_response (response_text : Str) : Str :=
  if pyContains response_text latexFence then
    let start : Int := pyFind response_text latexFence 0 + 8
    let stop : Int := pyFind response_text fenceMarker start
    pyStrip (pySlice response_text start stop)
  else if pyContains response_text fenceMarker then
    let start : Int := pyFind response_text fenceMarker 0 + 3
    let stop : Int := pyFind response_text fenceMarker start
    pyStrip (pySlice response_text start stop)
  else
    pyStrip response_text

example : extract_latex_from_response "```latex\nA\n```".data = ['A'] := by decide
example : extract_latex_from_response "  hi  ".data = ['h', 'i'] := by decide
example : extract_latex_from_response "```latex\nAB".data = ['A'] := by decide
example : pyCount "\\begin\x7ba\x7d \\begin\x7bb\x7d".data beginEnvMarker = 2 := by decide

/-! ### The generator (`llm_latex_generator.py`) -/

/-- `LaTeXGenerationResult` (lines 29–36). -/
structure LaTeXGenerationResult where
  success : Bool
  latex_content : Str
  warnings : List Str
  improvements_made : List Str
  error_message : Option Str := none
deriving DecidableEq

/-- `_generate_initial_latex` (lines 100–123): extract LaTeX from the service
reply; any exception from the call is caught and yields the empty string. -/
def generate_initial_latex (svc : Except Str Str) : Str :=
  match svc with
  | .ok reply => extract_latex_from_response reply
  | .error _ => []

/-- The issue-list scan of `_validate_and_fix_latex` (lines 293–302): when the
literal text `"issues":` occurs in the reply, slice from the first `{` in the
reply to the first `}` after it and hand that to `jparse` (which models
`json.loads` followed by `.get('issues', [])`, `none` being any exception);
a failed parse degrades to the single generic warning. -/
def parse_warnings (jparse : Str → Option (List Str)) (response_text : Str) : List Str :=
  if pyContains response_text issuesMarker then
    let start : Int := pyFind response_text lbraceStr 0
    let stop : Int := pyFind response_text rbraceStr start + 1
    match jparse (pySlice response_text start stop) with
    | some ws => ws
    | none => [unableMsg]
  else []

/-- The improvement log entry `f"Fixed \x7blen(warnings)\x7d LaTeX issues"`. -/
def fixedMsg (n : Nat) : Str :=
  "Fixed ".data ++ (toString n).data ++ " LaTeX issues".data

/-- `_validate_and_fix_latex` (lines 243–319): one service call; collect the
issue warnings, extract the corrected document, and discard the correction if
it is empty or less than half the original's length.  An exception from the
call returns the original with a `Validation failed` warning. -/
def validate_and_fix_latex (jparse : Str → Option (List Str)) (svc : Except Str Str)
    (latex_content : Str) : Str × List Str × List Str :=
  match svc with
  | .error e => (latex_content, ["Validation failed: ".data ++ e], [])
  | .ok response_text =>
    let warnings := parse_warnings jparse response_text
    let fixed_latex := extract_latex_from_response response_text
    if fixed_latex.isEmpty || decide (2 * fixed_latex.length < latex_content.length) then
      (latex_content, warnings, [])
    else
      (fixed_latex, warnings, if warnings.isEmpty then [] else [fixedMsg warnings.length])

/-- `generate_document` (lines 55–98): `svc1` is the initial-generation call,
`svc2` the validation call (made only when `validate` is set). -/
def generate_document (jparse : Str → Option (List Str)) (svc1 svc2 : Except Str Str)
    (validate : Bool) : LaTeXGenerationResult :=
  let latex_content := generate_initial_latex svc1
  if latex_content.isEmpty then
    { success := false, latex_content := [], warnings := [], improvements_made := [],
      error_message := some "Failed to generate initial LaTeX".data }
  else if validate then
    let v := validate_and_fix_latex jparse svc2 latex_content
    { success := true, latex_content := v.1, warnings := v.2.1,
      improvements_made := v.2.2, error_message := none }
  else
    { success := true, latex_content := latex_content, warnings := [],
      improvements_made := [], error_message := none }

/-- The fix log entry of `apply_visual_qa_fixes`:
`f"Applied fixes for: \x7b', '.join(issues[:3])\x7d"`. -/
def qaFixesMsg (issues : List Str) : Str :=
  "Applied fixes for: ".data ++ List.intercalate ", ".data (issues.take 3)

/-- `apply_visual_qa_fixes` (lines 321–414): one service call; the extracted
reply is accepted only if it is non-empty, at least half the original's
length, has balanced environment-open/close counts, and contains both
document markers; any failure (or exception) returns the original. -/
def apply_visual_qa_fixes (svc : Except Str Str) (latex_content : Str)
    (issues : List Str) : Str × Bool × List Str :=
  match svc with
  | .error _ => (latex_content, false, [])
  | .ok reply =>
    let fixed_latex := extract_latex_from_response reply
    if fixed_latex.isEmpty || decide (2 * fixed_latex.length < latex_content.length) then
      (latex_content, false, [])
    else if pyCount fixed_latex beginEnvMarker != pyCount fixed_latex endEnvMarker then
      (latex_content, false, [])
    else if !(pyContains fixed_latex beginDocMarker) || !(pyContains fixed_latex endDocMarker) then
      (latex_content, false, [])
    else
      (fixed_latex, true, [qaFixesMsg issues])

/-- The correction log entry `f"Attempt \x7battempt\x7d: Fixed compilation error"`. -/
def attemptMsg (n : Nat) : Str :=
  "Attempt ".data ++ (toString n).data ++ ": Fixed compilation error".data

/-- The loop body of `self_correct_compilation_errors` (lines 441–512):
`attempt` is the 1-based attempt counter, `fuel` the remaining attempts,
`log` the accumulated `corrections_made`.  Returns the function result and
the number of service calls issued. -/
def self_correct_aux (oracle : Nat → Except Str Str) (latex_content : Str) :
    Nat → Nat → List Str → (Str × Bool × List Str) × Nat
  | _, 0, log => ((latex_content, false, log), 0)
  | attempt, fuel+1, log =>
    match oracle attempt with
    | .error _ =>
      let r := self_correct_aux oracle latex_content (attempt+1) fuel log
      (r.1, r.2 + 1)
    | .ok reply =>
      let corrected := extract_latex_from_response reply
      if corrected.isEmpty || decide (2 * corrected.length < latex_content.length) then
        let r := self_correct_aux oracle latex_content (attempt+1) fuel log
        (r.1, r.2 + 1)
      else if !(pyContains corrected beginDocMarker) || !(pyContains corrected endDocMarker) then
        let r := self_correct_aux oracle latex_content (attempt+1) fuel log
        (r.1, r.2 + 1)
      else
        ((corrected, true, log ++ [attemptMsg attempt]), 1)

/-- `self_correct_compilation_errors` (lines 416–516): up to `max_attempts`
service calls, accepting the first structurally valid corrected document;
on exhaustion, the original document with `success = false`.  The
`compilation_error` text only feeds the prompt and does not affect the
result structure. -/
def self_correct_compilation_errors (oracle : Nat → Except Str Str)
    (latex_content compilation_error : Str) (max_attempts : Nat) : Str × Bool × List Str :=
  (self_correct_aux oracle latex_content 1 max_attempts []).1

/-- Number of service calls issued by `self_correct_compilation_errors`. -/
def self_correct_call_count (oracle : Nat → Except Str Str)
    (latex_content compilation_error : Str) (max_attempts : Nat) : Nat :=
  (self_correct_aux oracle latex_content 1 max_attempts []).2

/-- The acceptance test of one attempt of `self_correct_compilation_errors`:
`some` of the extracted corrected document when the service call succeeds and
the reply passes the structural checks, `none` otherwise. -/
def attempt_outcome (oracle : Nat → Except Str Str) (latex_content : Str) (i : Nat) :
    Option Str :=
  match oracle i with
  | .error _ => none
  | .ok reply =>
    let corrected := extract_latex_from_response reply
    if corrected.isEmpty || decide (2 * corrected.length < latex_content.length) then none
    else if !(pyContains corrected beginDocMarker) || !(pyContains corrected endDocMarker) then
      none
    else some corrected

/-! ### The report loader (`llm_report_generator.py`) -/

/-- A content section record `{"title": ..., "content": ..., "type": "markdown"}`. -/
structure Section where
  title : Str
  content : Str
  type : Str
deriving DecidableEq

/-- A table record `{"caption": ..., "data": ..., "format": ...}`. -/
structure TableSpec where
  caption : Str
  data : List (List Str)
  format : Str
deriving DecidableEq

/-- A figure record `{"path": ..., "caption": ..., "width": ...}`. -/
structure Figure where
  path : Str
  caption : Str
  width : Str
deriving DecidableEq

/-- The fixed ordered list of `(filename, section title)` pairs
(lines 72–79). -/
def markdown_files : List (Str × Str) :=
  [("introduction.md".data, "Introduction".data),
   ("methodology.md".data, "Methodology".data),
   ("research_areas.md".data, "Research Areas".data),
   ("detailed_results.md".data, "Detailed Results".data),
   ("results.md".data, "Results Discussion".data),
   ("conclusion.md".data, "Conclusion".data)]

/-- `load_markdown_content` (lines 54–60): the content directory is modelled
as a partial map from filename to file content (`none` = file absent);
a missing file reads as the empty string. -/
def load_markdown_content (dir : Str → Option Str) (filename : Str) : Str :=
  (dir filename).getD []

/-- The loop body of `load_all_markdown_sections` (lines 81–89): a file
contributes a section only when its loaded content is non-empty
(`if content:`). -/
def section_of (dir : Str → Option Str) (ft : Str × Str) : Option Section :=
  let content := load_markdown_content dir ft.1
  if content.isEmpty then none else some ⟨ft.2, content, "markdown".data⟩

/-- `load_all_markdown_sections` (lines 62–90). -/
def load_all_markdown_sections (dir : Str → Option Str) : List Section :=
  markdown_files.filterMap (section_of dir)

/-- `load_csv_tables` (lines 92–129): the two CSV files are modelled as
already-parsed row lists (`none` = file absent).  The second (training
metrics) table is truncated to its header row plus the first 5 data rows. -/
def load_csv_tables (perf train : Option (List (List Str))) : List TableSpec :=
  let t1 : List TableSpec :=
    match perf with
    | none => []
    | some rows =>
      if rows.isEmpty then []
      else [⟨"Model Performance Comparison".data, rows, "booktabs".data⟩]
  let t2 : List TableSpec :=
    match train with
    | none => []
    | some rows =>
      if rows.isEmpty || decide (rows.length ≤ 1) then []
      else [⟨"Training Progression (First 5 Epochs)".data,
            rows.take 1 ++ (rows.drop 1).take 5, "booktabs".data⟩]
  t1 ++ t2

/-- The image-file extensions globbed by `load_figures` (line 142). -/
def imageExts : List Str :=
  [".png".data, ".jpg".data, ".jpeg".data, ".pdf".data]

/-- `pathlib.Path(...).stem`: the filename without its final suffix (a lone
leading dot does not count as a suffix). -/
def pathStem (fn : Str) : Str :=
  match ((List.range fn.length).filter (fun i => fn.getD i ' ' == '.')).getLast? with
  | some i => if i = 0 then fn else fn.take i
  | none => fn

/-- Python `str.title()` restricted to ASCII: upper-case a letter that starts
a run of letters, lower-case the rest. -/
def pyTitle (s : Str) : Str :=
  go false s
where
  go : Bool → Str → Str
  | _, [] => []
  | prevAlpha, c :: cs =>
    (if c.isAlpha then (if prevAlpha then c.toLower else c.toUpper) else c)
      :: go c.isAlpha cs

/-- The figure path prefix `str(img_path.relative_to(output_dir.parent))`
under the default directories (`artifacts/output`, images under
`artifacts/sample_content/images`). -/
def imagesPathPrefix : Str := "sample_content/images/".data

/-- `load_figures` (lines 131–152): the images directory is modelled as
`none` (absent) or the list of its filenames in directory order; per
extension, matching files become figure records with a caption derived from
the stem (`_` → space, title case). -/
def load_figures (images : Option (List Str)) : List Figure :=
  match images with
  | none => []
  | some files =>
    imageExts.flatMap (fun ext =>
      (files.filter (fun fn => List.isSuffixOf ext fn)).map (fun fn =>
        ⟨imagesPathPrefix ++ fn,
         pyTitle ((pathStem fn).map (fun c => if c == '_' then ' ' else c)),
         "0.8\\textwidth".data⟩))

example :
    load_figures (some ["loss_curve.png".data]) =
      [⟨"sample_content/images/loss_curve.png".data, "Loss Curve".data,
        "0.8\\textwidth".data⟩] := by decide

/-! ### Spec-side definitions for refinement comparisons -/

/-- Depth-counting scan for the `\x7d` matching the `\x7b` at position
`start`; used only to state the C6 claim's locating rule. -/
def findMatching (s : Str) (start : Nat) : Option Nat :=
  go (s.drop (start+1)) 1 (start+1)
where
  go : Str → Nat → Nat → Option Nat
  | [], _, _ => none
  | c :: cs, d, i =>
    if c == '\x7d' then (if d = 1 then some i else go cs (d-1) (i+1))
    else if c == '\x7b' then go cs (d+1) (i+1)
    else go cs d (i+1)

/-- Modelled from the spec's words for claim C6 (the code under test instead
scans from the first `\x7b` anywhere in the reply to the first `\x7d` after it):
locate the issue JSON as the substring from the first `\x7b` occurring after the
literal marker text `"issues":` to its matching `\x7d`. -/
def c6_spec_locate (r : Str) : Str :=
  let m := ((pyFindNat r issuesMarker 0).getD 0) + issuesMarker.length
  match pyFindNat r lbraceStr m with
  | none => []
  | some s =>
    match findMatching r s with
    | none => []
    | some e => pySlice r (s : Int) ((e : Int) + 1)

/-- Modelled from the spec's words for claim C8 (the code under test also
drops files whose content is empty): one section per file that exists,
in the declared order. -/
def load_sections_c8spec (dir : Str → Option Str) : List Section :=
  markdown_files.filterMap (fun ft => (dir ft.1).map (fun c => ⟨ft.2, c, "markdown".data⟩))

/-! ### Helper lemmas -/

lemma occursAt_fenceMarker_of_latexFence {s : Str} {i : Nat}
    (h : occursAt s latexFence i = true) : occursAt s fenceMarker i = true := by
  unfold occursAt at h ⊢
  have h8 : latexFence.length = 8 := rfl
  have h3 : fenceMarker.length = 3 := rfl
  rw [h8] at h
  rw [h3]
  have h' : (s.drop i).take 8 = latexFence := by simpa using h
  have h'' : (s.drop i).take 3 = fenceMarker := by
    have := congrArg (List.take 3) h'
    rw [List.take_take] at this
    simpa using this
  simp [h'']

lemma exists_occursAt_of_pyContains {s sub : Str} (h : pyContains s sub = true) :
    ∃ i, i < s.length + 1 ∧ occursAt s sub i = true := by
  unfold pyContains pyFindNat at h
  rw [List.find?_isSome] at h
  obtain ⟨i, hmem, hp⟩ := h
  exact ⟨i, List.mem_range.mp hmem, by simpa using hp⟩

lemma pyContains_of_occursAt {s sub : Str} {i : Nat} (hi : i < s.length + 1)
    (h : occursAt s sub i = true) : pyContains s sub = true := by
  unfold pyContains pyFindNat
  rw [List.find?_isSome]
  exact ⟨i, List.mem_range.mpr hi, by simp [h]⟩

lemma pyContains_latexFence_eq_false {r : Str} (h : pyContains r fenceMarker = false) :
    pyContains r latexFence = false := by
  cases hx : pyContains r latexFence with
  | false => rfl
  | true =>
    obtain ⟨i, hi, hocc⟩ := exists_occursAt_of_pyContains hx
    have := pyContains_of_occursAt hi (occursAt_fenceMarker_of_latexFence hocc)
    rw [h] at this
    cases this

lemma pyFind_nonneg_of_contains {s sub : Str} (h : pyContains s sub = true) :
    0 ≤ pyFind s sub 0 := by
  unfold pyContains at h
  obtain ⟨i, hi⟩ := Option.isSome_iff_exists.mp h
  unfold pyFind
  simp only [show ¬ ((0 : Int) < 0) by omega, if_false, Int.toNat_zero]
  rw [hi]
  exact Int.ofNat_nonneg i

lemma pySlice_neg_one (s : Str) (a : Int) (ha : 0 ≤ a) :
    pySlice s a (-1) = (s.drop a.toNat).dropLast := by
  unfold pySlice
  have hn : ¬ (a < 0) := by omega
  have hb : ((-1 : Int) < 0) := by omega
  simp only [if_neg hn, if_pos hb]
  have ha1 : (min a (s.length : Int)).toNat = min a.toNat s.length := by omega
  have hb1 : (max ((s.length : Int) + (-1)) 0).toNat = s.length - 1 := by omega
  rw [ha1, hb1, List.drop_take, List.dropLast_eq_take, List.length_drop]
  rcases le_or_lt a.toNat s.length with h | h
  · rw [min_eq_left h]
    congr 1
    omega
  · rw [min_eq_right h.le, List.drop_eq_nil_of_le h.le]
    simp

/-! ### Claim theorems -/

/-- C1, counterexample: on the reply `"```latex\nA\n```"` the substring
between the opening tagged fence and the next fence marker is `"\nA\n"`,
but extraction returns the stripped `"A"`, so extraction does not return
exactly that substring. -/
theorem c1_counterexample :
    extract_latex_from_response "```latex\nA\n```".data = ['A'] ∧
    pySlice "```latex\nA\n```".data (pyFind "```latex\nA\n```".data latexFence 0 + 8)
        (pyFind "```latex\nA\n```".data fenceMarker
          (pyFind "```latex\nA\n```".data latexFence 0 + 8)) = ['\n', 'A', '\n'] ∧
    extract_latex_from_response "```latex\nA\n```".data ≠ ['\n', 'A', '\n'] := by
  decide

/-- C1 (amended): for every reply containing a fenced block opened with the
language-tagged fence, extraction returns the substring between that opening
fence and the next fence marker, trimmed of surrounding whitespace; for
every reply containing no fence markers at all, it returns the whole reply
trimmed of surrounding whitespace. -/
theorem c1_extraction_rule (r : Str) :
    (pyContains r latexFence = true →
      extract_latex_from_response r =
        pyStrip (pySlice r (pyFind r latexFence 0 + 8)
          (pyFind r fenceMarker (pyFind r latexFence 0 + 8)))) ∧
    (pyContains r fenceMarker = false → extract_latex_from_response r = pyStrip r) := by
  constructor
  · intro h
    unfold extract_latex_from_response
    simp [h]
  · intro h
    have h2 : pyContains r latexFence = false := pyContains_latexFence_eq_false h
    unfold extract_latex_from_response
    simp [h, h2]

theorem c1_witness :
    (extract_latex_from_response "```latex\nA\n```".data =
      pyStrip (pySlice "```latex\nA\n```".data
        (pyFind "```latex\nA\n```".data latexFence 0 + 8)
        (pyFind "```latex\nA\n```".data fenceMarker
          (pyFind "```latex\nA\n```".data latexFence 0 + 8)))) ∧
    extract_latex_from_response "plain reply".data = pyStrip "plain reply".data :=
  ⟨(c1_extraction_rule "```latex\nA\n```".data).1 (by decide),
   (c1_extraction_rule "plain reply".data).2 (by decide)⟩

/-- C2: when the initial service call raises, `generate_document` still
returns a result object, with `success = false` and a non-empty error
message (for every validation oracle and `validate` flag). -/
theorem c2_generate_document_soft_failure (jparse : Str → Option (List Str))
    (e : Str) (svc2 : Except Str Str) (validate : Bool) :
    (generate_document jparse (Except.error e) svc2 validate).success = false ∧
    ∃ msg, (generate_document jparse (Except.error e) svc2 validate).error_message = some msg
      ∧ msg ≠ [] := by
  refine ⟨rfl, "Failed to generate initial LaTeX".data, rfl, by decide⟩

/-- C9: whenever the initial extraction yields a non-empty document, the
result of `generate_document` has `success = true` even if the validation
call raises; `latex_content` is then the pre-validation document unchanged,
`warnings` is exactly one `Validation failed` entry, and
`improvements_made` is empty. -/
theorem c9_success_despite_validation_error (jparse : Str → Option (List Str))
    (reply e : Str) (h : extract_latex_from_response reply ≠ []) :
    generate_document jparse (Except.ok reply) (Except.error e) true =
      { success := true, latex_content := extract_latex_from_response reply,
        warnings := ["Validation failed: ".data ++ e], improvements_made := [],
        error_message := none } := by
  have hne : (extract_latex_from_response reply).isEmpty = false := by
    cases hx : extract_latex_from_response reply with
    | nil => exact absurd hx h
    | cons a l => rfl
  unfold generate_document generate_initial_latex validate_and_fix_latex
  simp [hne]

theorem c9_witness :
    generate_document (fun _ => none) (Except.ok "X".data) (Except.error "boom".data) true =
      { success := true, latex_content := extract_latex_from_response "X".data,
        warnings := ["Validation failed: ".data ++ "boom".data], improvements_made := [],
        error_message := none } :=
  c9_success_despite_validation_error (fun _ => none) "X".data "boom".data (by decide)

/-- C10: for every reply containing the tagged fence marker but no later
fence marker, extraction returns the text following the tagged marker with
the final character of the reply removed (the failed search yields `-1`,
used as the slice end), then stripped of surrounding whitespace. -/
theorem c10_unclosed_tagged_fence (r : Str)
    (h1 : pyContains r latexFence = true)
    (h2 : pyFind r fenceMarker (pyFind r latexFence 0 + 8) = -1) :
    extract_latex_from_response r =
      pyStrip ((r.drop (pyFind r latexFence 0 + 8).toNat).dropLast) := by
  have ha : 0 ≤ pyFind r latexFence 0 + 8 := by
    have := pyFind_nonneg_of_contains h1
    omega
  unfold extract_latex_from_response
  simp only [h1, if_true]
  rw [h2, pySlice_neg_one r _ ha]

theorem c10_witness :
    extract_latex_from_response "```latex\nAB".data =
      pyStrip (("```latex\nAB".data.drop
        (pyFind "```latex\nAB".data latexFence 0 + 8).toNat).dropLast) :=
  c10_unclosed_tagged_fence "```latex\nAB".data (by decide) (by decide)

lemma self_correct_aux_step (oracle : Nat → Except Str Str) (latex_content : Str)
    (attempt fuel : Nat) (log : List Str) :
    self_correct_aux oracle latex_content attempt (fuel+1) log =
      match attempt_outcome oracle latex_content attempt with
      | some c => ((c, true, log ++ [attemptMsg attempt]), 1)
      | none =>
        ((self_correct_aux oracle latex_content (attempt+1) fuel log).1,
         (self_correct_aux oracle latex_content (attempt+1) fuel log).2 + 1) := by
  cases h : oracle attempt with
  | error e => simp [self_correct_aux, attempt_outcome, h]
  | ok reply =>
    simp only [self_correct_aux, attempt_outcome, h]
    by_cases h1 : ((extract_latex_from_response reply).isEmpty
        || decide (2 * (extract_latex_from_response reply).length < latex_content.length)) = true
    · simp [h1]
    · rw [Bool.not_eq_true] at h1
      by_cases h2 : (!(pyContains (extract_latex_from_response reply) beginDocMarker)
          || !(pyContains (extract_latex_from_response reply) endDocMarker)) = true
      · simp [h1, h2]
      · rw [Bool.not_eq_true] at h2
        simp [h1, h2]

/-- C3: with `max_attempts = 3`, `self_correct_compilation_errors` issues at
most 3 service calls; it returns `success = true` with the first reply that
passes the structural checks, issuing no further calls, and when every
attempt fails validation or raises it returns the original document
unmodified with `success = false` and the accumulated (empty) correction
log.  The result and the call count are characterized exactly by the
outcomes of the three attempts. -/
theorem c3_self_correct_three_attempts (oracle : Nat → Except Str Str)
    (latex_content compilation_error : Str) :
    (self_correct_compilation_errors oracle latex_content compilation_error 3,
      self_correct_call_count oracle latex_content compilation_error 3) =
      (match attempt_outcome oracle latex_content 1, attempt_outcome oracle latex_content 2,
          attempt_outcome oracle latex_content 3 with
        | some c, _, _ => ((c, true, [attemptMsg 1]), 1)
        | none, some c, _ => ((c, true, [attemptMsg 2]), 2)
        | none, none, some c => ((c, true, [attemptMsg 3]), 3)
        | none, none, none => ((latex_content, false, ([] : List Str)), 3)) ∧
    self_correct_call_count oracle latex_content compilation_error 3 ≤ 3 := by
  have h1 : self_correct_aux oracle latex_content 1 3 [] =
      match attempt_outcome oracle latex_content 1 with
      | some c => ((c, true, [] ++ [attemptMsg 1]), 1)
      | none =>
        ((self_correct_aux oracle latex_content 2 2 []).1,
         (self_correct_aux oracle latex_content 2 2 []).2 + 1) :=
    self_correct_aux_step oracle latex_content 1 2 []
  have h2 : self_correct_aux oracle latex_content 2 2 [] =
      match attempt_outcome oracle latex_content 2 with
      | some c => ((c, true, [] ++ [attemptMsg 2]), 1)
      | none =>
        ((self_correct_aux oracle latex_content 3 1 []).1,
         (self_correct_aux oracle latex_content 3 1 []).2 + 1) :=
    self_correct_aux_step oracle latex_content 2 1 []
  have h3 : self_correct_aux oracle latex_content 3 1 [] =
      match attempt_outcome oracle latex_content 3 with
      | some c => ((c, true, [] ++ [attemptMsg 3]), 1)
      | none =>
        ((self_correct_aux oracle latex_content 4 0 []).1,
         (self_correct_aux oracle latex_content 4 0 []).2 + 1) :=
    self_correct_aux_step oracle latex_content 3 0 []
  have h0 : self_correct_aux oracle latex_content 4 0 [] =
      ((latex_content, false, []), 0) := rfl
  unfold self_correct_compilation_errors self_correct_call_count
  rcases ho1 : attempt_outcome oracle latex_content 1 with _ | c1 <;>
    rcases ho2 : attempt_outcome oracle latex_content 2 with _ | c2 <;>
    rcases ho3 : attempt_outcome oracle latex_content 3 with _ | c3 <;>
    rw [ho1] at h1 <;> rw [ho2] at h2 <;> rw [ho3] at h3 <;>
    simp [h0, h3, h2, h1]

/-- The acceptance test of `apply_visual_qa_fixes` over the pair
(original document, extracted candidate). -/
def qa_accepts (latex_content fixed_latex : Str) : Bool :=
  !(fixed_latex.isEmpty || decide (2 * fixed_latex.length < latex_content.length)) &&
  (pyCount fixed_latex beginEnvMarker == pyCount fixed_latex endEnvMarker) &&
  (pyContains fixed_latex beginDocMarker && pyContains fixed_latex endDocMarker)

lemma apply_visual_qa_fixes_ok (latex_content : Str) (issues : List Str) (reply : Str) :
    apply_visual_qa_fixes (Except.ok reply) latex_content issues =
      (if qa_accepts latex_content (extract_latex_from_response reply)
       then (extract_latex_from_response reply, true, [qaFixesMsg issues])
       else (latex_content, false, [])) := by
  unfold apply_visual_qa_fixes qa_accepts
  by_cases h1 : ((extract_latex_from_response reply).isEmpty
      || decide (2 * (extract_latex_from_response reply).length < latex_content.length)) = true
  · simp [h1]
  · rw [Bool.not_eq_true] at h1
    by_cases h2 : (pyCount (extract_latex_from_response reply) beginEnvMarker
        != pyCount (extract_latex_from_response reply) endEnvMarker) = true
    · simp only [h1, h2]
      simp only [bne_iff_ne, ne_eq] at h2
      simp [h2]
    · rw [Bool.not_eq_true] at h2
      by_cases h3 : (!(pyContains (extract_latex_from_response reply) beginDocMarker)
          || !(pyContains (extract_latex_from_response reply) endDocMarker)) = true
      · simp only [h1, h2, h3]
        simp only [bne_eq_false_iff_eq] at h2
        simp only [Bool.or_eq_true, Bool.not_eq_true'] at h3
        rcases h3 with h3 | h3 <;> simp [h2, h3]
      · rw [Bool.not_eq_true] at h3
        simp only [h1, h2, h3]
        simp only [bne_eq_false_iff_eq] at h2
        simp only [Bool.or_eq_false_iff] at h3
        have hb : pyContains (extract_latex_from_response reply) beginDocMarker = true := by
          simpa using h3.1
        have he : pyContains (extract_latex_from_response reply) endDocMarker = true := by
          simpa using h3.2
        simp [h1, h2, hb, he]

/-- C4: `apply_visual_qa_fixes` accepts the extracted service reply only if
it is non-empty, at least half the original document's length, has equal
counts of environment-open and environment-close markers, and contains both
document markers; whenever any of these checks fails, it returns the
original document unchanged with `success = false` and an empty fixes
list. -/
theorem c4_visual_qa_acceptance (latex_content : Str) (issues : List Str) (reply : Str) :
    ((apply_visual_qa_fixes (Except.ok reply) latex_content issues).2.1 = true →
      qa_accepts latex_content (extract_latex_from_response reply) = true) ∧
    (qa_accepts latex_content (extract_latex_from_response reply) = false →
      apply_visual_qa_fixes (Except.ok reply) latex_content issues =
        (latex_content, false, [])) := by
  rw [apply_visual_qa_fixes_ok]
  constructor
  · intro hs
    cases hq : qa_accepts latex_content (extract_latex_from_response reply) with
    | true => rfl
    | false => rw [if_neg (by simp [hq])] at hs; cases hs
  · intro hq
    rw [if_neg (by simp [hq])]

theorem c4_witness :
    qa_accepts "x".data
        (extract_latex_from_response "\\begin{document} body \\end{x}".data) = false ∧
    apply_visual_qa_fixes (Except.ok "\\begin{document} body \\end{x}".data) "x".data [] =
      ("x".data, false, []) :=
  ⟨by decide,
   (c4_visual_qa_acceptance "x".data [] "\\begin{document} body \\end{x}".data).2 (by decide)⟩

/-- C5: `_validate_and_fix_latex` never returns a document shorter than half
the length of the pre-correction input; if the extracted candidate is empty
or shorter than half the input's length, the original input document is
returned unchanged, with the collected warnings and no improvements. -/
theorem c5_validate_never_halves (jparse : Str → Option (List Str)) (svc : Except Str Str)
    (latex_content : Str) :
    latex_content.length ≤ 2 * (validate_and_fix_latex jparse svc latex_content).1.length ∧
    (∀ reply, svc = Except.ok reply →
      ((extract_latex_from_response reply).isEmpty = true ∨
        2 * (extract_latex_from_response reply).length < latex_content.length) →
      validate_and_fix_latex jparse svc latex_content =
        (latex_content, parse_warnings jparse reply, [])) := by
  cases svc with
  | error e =>
    constructor
    · simp only [validate_and_fix_latex]
      omega
    · intro reply he
      cases he
  | ok reply =>
    by_cases hc : ((extract_latex_from_response reply).isEmpty
        || decide (2 * (extract_latex_from_response reply).length < latex_content.length)) = true
    · constructor
      · simp only [validate_and_fix_latex, hc, if_true]
        omega
      · intro reply' he hbad
        injection he with he'
        subst he'
        simp only [validate_and_fix_latex, hc, if_true]
    · rw [Bool.not_eq_true] at hc
      have hc' := hc
      simp only [Bool.or_eq_false_iff, decide_eq_false_iff_not, not_lt] at hc'
      constructor
      · simp only [validate_and_fix_latex, hc, Bool.false_eq_true, if_false]
        omega
      · intro reply' he hbad
        injection he with he'
        subst he'
        rcases hbad with hbad | hbad
        · rw [hc'.1] at hbad
          cases hbad
        · omega

theorem c5_witness :
    "abcdef".data.length ≤
      2 * (validate_and_fix_latex (fun _ => none) (Except.ok "hi".data) "abcdef".data).1.length ∧
    validate_and_fix_latex (fun _ => none) (Except.ok "hi".data) "abcdef".data =
      ("abcdef".data, parse_warnings (fun _ => none) "hi".data, []) := by
  have h := c5_validate_never_halves (fun _ => none) (Except.ok "hi".data) "abcdef".data
  exact ⟨h.1, h.2 "hi".data rfl (by decide)⟩

/-- A validation reply on which the code's brace scan and the claimed brace
scan pick different substrings: the code takes the first `\x7b` in the reply and
the first `\x7d` after it (the early pair around `x`), while the claim's rule
finds the balanced issues object after the first marker occurrence. -/
def c6_reply : Str := "\x7bx\x7d \"issues\": noted \x7b\"issues\": [\"a\"]\x7d".data

/-- The well-formed issues object embedded in `c6_reply`. -/
def c6_full_json : Str := "\x7b\"issues\": [\"a\"]\x7d".data

/-- Models `json.loads(s).get('issues', [])` on the two substrings exercised
by the C6 counterexample: the full issues object parses to its issue list,
while the truncated prefix the code slices is not valid JSON and fails. -/
def c6_jparse : Str → Option (List Str) :=
  fun s => if s = c6_full_json then some ["a".data] else none

/-- C6, counterexample: on `c6_reply` the substring located per the claim
(first brace after the marker text, with its matching close brace) parses to
the issue list `["a"]`, yet the code's warnings degenerate to the generic
"unable to parse" string — because the code actually slices from the first
brace anywhere in the reply to the first close brace after it. -/
theorem c6_counterexample :
    c6_jparse (c6_spec_locate c6_reply) = some ["a".data] ∧
    parse_warnings c6_jparse c6_reply = [unableMsg] ∧
    parse_warnings c6_jparse c6_reply ≠ ["a".data] := by
  decide

/-- C6 (amended): the issue JSON is located by scanning for the first `\x7b`
anywhere in the reply and the first `\x7d` after it (the scan being performed
only when the literal marker text `"issues":` occurs in the reply); for
every reply where this located substring cannot be parsed as JSON, the
warnings list degenerates to exactly one generic "unable to parse" string,
and a corrected document is still returned. -/
theorem c6_issue_json_parse_failure (jparse : Str → Option (List Str)) (r latex_content : Str)
    (hm : pyContains r issuesMarker = true)
    (hp : jparse (pySlice r (pyFind r lbraceStr 0)
        (pyFind r rbraceStr (pyFind r lbraceStr 0) + 1)) = none) :
    (validate_and_fix_latex jparse (Except.ok r) latex_content).2.1 = [unableMsg] ∧
    ((extract_latex_from_response r).isEmpty = false →
      latex_content.length ≤ 2 * (extract_latex_from_response r).length →
      (validate_and_fix_latex jparse (Except.ok r) latex_content).1 =
        extract_latex_from_response r) := by
  have hw : parse_warnings jparse r = [unableMsg] := by
    unfold parse_warnings
    simp [hm, hp]
  constructor
  · by_cases hc : ((extract_latex_from_response r).isEmpty
        || decide (2 * (extract_latex_from_response r).length < latex_content.length)) = true
    · simp only [validate_and_fix_latex, hc, if_true, hw]
    · rw [Bool.not_eq_true] at hc
      simp only [validate_and_fix_latex, hc, Bool.false_eq_true, if_false, hw]
  · intro h1 h2
    have hc : ((extract_latex_from_response r).isEmpty
        || decide (2 * (extract_latex_from_response r).length < latex_content.length)) = false := by
      simp [h1]
      omega
    simp only [validate_and_fix_latex, hc, Bool.false_eq_true, if_false]

/-- A validation reply containing the issues marker but no brace at all, so
the code's scan slices an unparsable empty candidate. -/
def c6_witness_reply : Str := "\"issues\": junk \\documentclass body".data

theorem c6_witness :
    (validate_and_fix_latex (fun _ => none) (Except.ok c6_witness_reply) "ab".data).2.1 =
      [unableMsg] ∧
    (validate_and_fix_latex (fun _ => none) (Except.ok c6_witness_reply) "ab".data).1 =
      extract_latex_from_response c6_witness_reply := by
  have h := c6_issue_json_parse_failure (fun _ => none) c6_witness_reply "ab".data
    (by decide) rfl
  exact ⟨h.1, h.2 (by decide) (by decide)⟩

/-- C7: for every training-metrics CSV with more than 6 rows, the loaded
limited table's data is exactly the header row plus the first 5 data rows
(6 rows in total), regardless of the total row count. -/
theorem c7_training_table_limited (perf : Option (List (List Str)))
    (rows : List (List Str)) (h : 6 < rows.length) :
    ∃ front, load_csv_tables perf (some rows) =
        front ++ [⟨"Training Progression (First 5 Epochs)".data, rows.take 6,
          "booktabs".data⟩] ∧
      (rows.take 6).length = 6 ∧
      rows.take 6 = rows.take 1 ++ (rows.drop 1).take 5 := by
  have hne : rows.isEmpty = false := by
    cases rows with
    | nil => simp at h
    | cons a l => rfl
  have hgt : ¬ (rows.length ≤ 1) := by omega
  have htd : rows.take (1 + 5) = rows.take 1 ++ (rows.drop 1).take 5 := List.take_add rows 1 5
  refine ⟨load_csv_tables perf none, ?_, ?_, htd⟩
  · unfold load_csv_tables
    simp only [List.append_nil]
    have ht2 : (if rows.isEmpty || decide (rows.length ≤ 1) then ([] : List TableSpec)
        else [⟨"Training Progression (First 5 Epochs)".data,
          rows.take 1 ++ (rows.drop 1).take 5, "booktabs".data⟩]) =
        [⟨"Training Progression (First 5 Epochs)".data, rows.take 6, "booktabs".data⟩] := by
      rw [if_neg (by simp [hne, hgt]), ← htd]
    rw [ht2]
  · rw [List.length_take]
    omega

def c7_rows : List (List Str) :=
  [["r0".data], ["r1".data], ["r2".data], ["r3".data], ["r4".data], ["r5".data], ["r6".data]]

theorem c7_witness :
    ∃ front, load_csv_tables none (some c7_rows) =
        front ++ [⟨"Training Progression (First 5 Epochs)".data, c7_rows.take 6,
          "booktabs".data⟩] ∧
      (c7_rows.take 6).length = 6 ∧
      c7_rows.take 6 = c7_rows.take 1 ++ (c7_rows.drop 1).take 5 :=
  c7_training_table_limited none c7_rows (by decide)

/-- A content directory in which `introduction.md` exists but is empty. -/
def c8_dir_empty_intro : Str → Option Str :=
  fun fn => if fn = "introduction.md".data then some [] else none

/-- C8, counterexample: with `introduction.md` existing but empty, the
loader returns no section at all, while the claimed behaviour ("exactly the
sections for the files that exist") would produce an Introduction
section. -/
theorem c8_counterexample :
    c8_dir_empty_intro "introduction.md".data = some [] ∧
    load_all_markdown_sections c8_dir_empty_intro = [] ∧
    load_sections_c8spec c8_dir_empty_intro =
      [⟨"Introduction".data, [], "markdown".data⟩] := by
  decide

lemma sections_title_sublist (dir : Str → Option Str) (l : List (Str × Str)) :
    ((l.filterMap (section_of dir)).map Section.title).Sublist (l.map Prod.snd) := by
  induction l with
  | nil => simp
  | cons hd tl ih =>
    rw [List.filterMap_cons, List.map_cons]
    cases h : section_of dir hd with
    | none => exact ih.cons hd.2
    | some s =>
      have ht : s.title = hd.2 := by
        simp only [section_of] at h
        split at h
        · cases h
        · injection h with h'
          rw [← h']
      rw [List.map_cons, ht]
      exact ih.cons₂ hd.2

/-- C8 (amended): for every content directory, the loader returns exactly
the sections for the files that exist with non-empty content, in the
declared fixed order (and never raises); in particular, a directory
containing only `introduction.md` with content "Hello" and no CSV/images
yields the single Introduction section, no tables and no figures. -/
theorem c8_loader_missing_files (dir : Str → Option Str) :
    load_all_markdown_sections dir =
      markdown_files.filterMap (fun ft =>
        match dir ft.1 with
        | some c => if c.isEmpty then none else some ⟨ft.2, c, "markdown".data⟩
        | none => none) ∧
    ((load_all_markdown_sections dir).map Section.title).Sublist
      (markdown_files.map Prod.snd) ∧
    load_all_markdown_sections
        (fun fn => if fn = "introduction.md".data then some "Hello".data else none) =
      [⟨"Introduction".data, "Hello".data, "markdown".data⟩] ∧
    load_csv_tables none none = [] ∧
    load_figures none = [] := by
  refine ⟨?_, sections_title_sublist dir markdown_files, by decide, rfl, rfl⟩
  unfold load_all_markdown_sections
  refine congrArg (fun f => List.filterMap f markdown_files) (funext fun ft => ?_)
  unfold section_of load_markdown_content
  cases dir ft.1 <;> simp
